import Mathlib

/-!
Shallow embedding of the tag-game session coordinator (src/main.go).

The two DynamoDB tables are modelled as lists of records inside a `Store`.
Transport-level failures of individual store calls are modelled by an
explicit schedule (`Sched`): each store call consumes one boolean from the
front of the schedule, `true` meaning the call fails at the transport
level; an exhausted schedule means every remaining call succeeds.  Every
coordinator operation is a function from the current store, the request and
the schedule to a result (`Except GoErr`), the updated store and the
remaining schedule, mirroring the Go control flow statement by statement.
-/

namespace TagGame

/-- The `Game` record of src/main.go (the spec's Session). -/
structure Game where
  gameId : String
  gameName : String
  hasGameStarted : Bool
  ownerId : String
deriving DecidableEq

/-- The `Player` record of src/main.go (the spec's Member). -/
structure Player where
  playerId : String
  playerName : String
  gameId : String
deriving DecidableEq

/-- The two DynamoDB tables: games keyed by `gameId`, players keyed by
`playerId`, with a secondary index on the players' `gameId`. -/
structure Store where
  games : List Game
  players : List Player
deriving DecidableEq

/-- `GameRequest` of src/main.go. -/
structure GameRequest where
  gameId : String
  playerId : String
deriving DecidableEq

/-- `CreateGameRequest` of src/main.go (embedded `GameRequest` flattened). -/
structure CreateGameRequest where
  gameName : String
  playerName : String
  gameId : String
  playerId : String
deriving DecidableEq

/-- `JoinGameRequest` of src/main.go (embedded `GameRequest` flattened). -/
structure JoinGameRequest where
  gameId : String
  playerId : String
  playerName : String
deriving DecidableEq

/-- `RemovePlayerRequest` of src/main.go. -/
structure RemovePlayerRequest where
  gameId : String
  playerId : String
  playerIdToRemove : String
deriving DecidableEq

/-- The distinct error values the Go coordinator can return, up to the
distinctions the program itself makes with `errors.As` in the handlers:
a cancelled `TransactWriteItems` transaction (conditional check failed),
a `ConditionalCheckFailedException` from a conditional `PutItem`, any
other wrapped transport or store failure (with the Go format-string
context), the game-not-found errors, and the unauthorized errors. -/
inductive GoErr where
  | transactionCanceled
  | condCheckFailed
  | transportFailed (ctx : String)
  | gameNotFound (gameId : String)
  | unauthorized (msg : String)
deriving DecidableEq

instance {ε α : Type} [DecidableEq ε] [DecidableEq α] : DecidableEq (Except ε α)
  | .error e1, .error e2 => decidable_of_iff (e1 = e2) (by simp)
  | .error _, .ok _ => .isFalse (by simp)
  | .ok _, .error _ => .isFalse (by simp)
  | .ok a1, .ok a2 => decidable_of_iff (a1 = a2) (by simp)

/-- Result of one coordinator call: the returned value or error, the store
after the call, and the unconsumed tail of the failure schedule. -/
structure Out (α : Type) where
  res : Except GoErr α
  store : Store
  sched : List Bool
deriving DecidableEq

/-- Failure schedule for store calls: `true` at position `i` makes the
`i`-th store call of the run fail at the transport level. -/
abbrev Sched := List Bool

/-- Consume the next scheduled outcome; an exhausted schedule means the
call succeeds. -/
def tick : Sched → Bool × Sched
  | [] => (false, [])
  | b :: r => (b, r)

/-- Outcome scheduled for the `i`-th store call. -/
def schedAt (o : Sched) (i : Nat) : Bool := o.getD i false

/-- `GetItem` on the games table. -/
def Store.getGame (s : Store) (gid : String) : Option Game :=
  s.games.find? (fun g => g.gameId == gid)

/-- `GetItem` on the players table. -/
def Store.getPlayer (s : Store) (pid : String) : Option Player :=
  s.players.find? (fun p => p.playerId == pid)

/-- `Put` of a game record. -/
def Store.putGame (s : Store) (g : Game) : Store :=
  { s with games := s.games ++ [g] }

/-- `Put` of a player record. -/
def Store.putPlayer (s : Store) (p : Player) : Store :=
  { s with players := s.players ++ [p] }

/-- `DeleteItem` on the games table (deleting an absent key succeeds). -/
def Store.deleteGameItem (s : Store) (gid : String) : Store :=
  { s with games := s.games.filter (fun g => g.gameId != gid) }

/-- `DeleteItem` on the players table (deleting an absent key succeeds). -/
def Store.deletePlayerItem (s : Store) (pid : String) : Store :=
  { s with players := s.players.filter (fun p => p.playerId != pid) }

/-- `Query` on the players table through the `gameIdIndex` secondary
index. -/
def Store.queryPlayersByGameId (s : Store) (gid : String) : List Player :=
  s.players.filter (fun p => p.gameId == gid)

/-- `UpdateItem` with `SET hasGameStarted = :state`.  DynamoDB upserts: an
absent key creates an item carrying only the key and the updated
attribute; the other attributes unmarshal to Go zero values. -/
def Store.updateGameStarted (s : Store) (gid : String) (state : Bool) : Store :=
  if s.games.any (fun g => g.gameId == gid) then
    { s with games :=
        s.games.map (fun g =>
          if g.gameId == gid then { g with hasGameStarted := state } else g) }
  else
    { s with games := s.games ++ [{ gameId := gid, gameName := "", hasGameStarted := state, ownerId := "" }] }

/-- `CreateGameAndPlayer` of src/main.go: one `TransactWriteItems` putting
the game (conditioned on `gameId` absent) and the owning player
(conditioned on `playerId` absent) all-or-nothing.  A cancelled
transaction (either condition failed) surfaces as
`GoErr.transactionCanceled`; marshalling of the two records never fails
for these string/bool structs. -/
def CreateGameAndPlayer (s : Store) (req : CreateGameRequest) (o : Sched) : Out Unit :=
  let gameItem : Game :=
    { gameId := req.gameId, gameName := req.gameName, hasGameStarted := false, ownerId := req.playerId }
  let playerItem : Player :=
    { playerId := req.playerId, playerName := req.playerName, gameId := req.gameId }
  match tick o with
  | (fail, o1) =>
    if fail then ⟨.error (.transportFailed "transaction failed"), s, o1⟩
    else if (s.getGame req.gameId).isSome || (s.getPlayer req.playerId).isSome then
      ⟨.error .transactionCanceled, s, o1⟩
    else ⟨.ok (), (s.putGame gameItem).putPlayer playerItem, o1⟩

/-- `CreatePlayer` of src/main.go: conditional `PutItem` of the player,
conditioned on `playerId` not existing. -/
def CreatePlayer (s : Store) (req : JoinGameRequest) (o : Sched) : Out Unit :=
  let itemToWrite : Player :=
    { playerId := req.playerId, playerName := req.playerName, gameId := req.gameId }
  match tick o with
  | (fail, o1) =>
    if fail then ⟨.error (.transportFailed "failed to put item into DynamoDB"), s, o1⟩
    else if (s.getPlayer req.playerId).isSome then ⟨.error .condCheckFailed, s, o1⟩
    else ⟨.ok (), s.putPlayer itemToWrite, o1⟩

/-- `JoinGame` of src/main.go: read-only existence check of the game. -/
def JoinGame (s : Store) (req : JoinGameRequest) (o : Sched) : Out Unit :=
  match tick o with
  | (fail, o1) =>
    if fail then ⟨.error (.transportFailed "failed to query DynamoDB"), s, o1⟩
    else
      match s.getGame req.gameId with
      | none => ⟨.error (.gameNotFound req.gameId), s, o1⟩
      | some _ => ⟨.ok (), s, o1⟩

/-- `IsGameOwner` of src/main.go: read the game, `NotFound` if absent,
else compare the stored `ownerId` with `playerId`.  Read-only. -/
def IsGameOwner (s : Store) (gameId playerId : String) (o : Sched) : Out Bool :=
  match tick o with
  | (fail, o1) =>
    if fail then ⟨.error (.transportFailed "failed to get game"), s, o1⟩
    else
      match s.getGame gameId with
      | none => ⟨.error (.gameNotFound gameId), s, o1⟩
      | some game => ⟨.ok (game.ownerId == playerId), s, o1⟩

/-- The per-player deletion loop at the end of `DeleteGame`: a failed
`DeleteItem` is logged and skipped, the loop continues with the rest.
(Unmarshalling of a queried record never fails for these structs.) -/
def deletePlayersLoop (s : Store) (items : List Player) (o : Sched) : Store × Sched :=
  match items with
  | [] => (s, o)
  | p :: rest =>
    match tick o with
    | (fail, o1) =>
      if fail then deletePlayersLoop s rest o1
      else deletePlayersLoop (s.deletePlayerItem p.playerId) rest o1

/-- `DeleteGame` of src/main.go: ownership gate, delete the game record,
query the players by `gameId` on the secondary index, then best-effort
delete each of them. -/
def DeleteGame (s : Store) (req : GameRequest) (o : Sched) : Out Unit :=
  match IsGameOwner s req.gameId req.playerId o with
  | ⟨.error e, s1, o1⟩ => ⟨.error e, s1, o1⟩
  | ⟨.ok isOwner, s1, o1⟩ =>
    if !isOwner then
      ⟨.error (.unauthorized "only the game owner can delete this game"), s1, o1⟩
    else
      match tick o1 with
      | (fail, o2) =>
        if fail then ⟨.error (.transportFailed "failed to delete game"), s1, o2⟩
        else
          let s2 := s1.deleteGameItem req.gameId
          match tick o2 with
          | (fail2, o3) =>
            if fail2 then ⟨.error (.transportFailed "failed to query players by gameId"), s2, o3⟩
            else
              match deletePlayersLoop s2 (s2.queryPlayersByGameId req.gameId) o3 with
              | (s3, o4) => ⟨.ok (), s3, o4⟩

/-- `RemovePlayer` of src/main.go: ownership gate, then unconditional
`DeleteItem` of the player keyed by `playerIdToRemove` alone. -/
def RemovePlayer (s : Store) (req : RemovePlayerRequest) (o : Sched) : Out Unit :=
  match IsGameOwner s req.gameId req.playerId o with
  | ⟨.error e, s1, o1⟩ => ⟨.error e, s1, o1⟩
  | ⟨.ok isOwner, s1, o1⟩ =>
    if !isOwner then
      ⟨.error (.unauthorized "only the game owner can remove a player"), s1, o1⟩
    else
      match tick o1 with
      | (fail, o2) =>
        if fail then ⟨.error (.transportFailed "failed to remove player"), s1, o2⟩
        else ⟨.ok (), s1.deletePlayerItem req.playerIdToRemove, o2⟩

/-- `SetGameState` of src/main.go: single-field unconditional update of
`hasGameStarted`. -/
def SetGameState (s : Store) (state : Bool) (gameId : String) (o : Sched) : Out Unit :=
  match tick o with
  | (fail, o1) =>
    if fail then ⟨.error (.transportFailed "failed to update game state"), s, o1⟩
    else ⟨.ok (), s.updateGameStarted gameId state, o1⟩

/-- `StartGame` of src/main.go: ownership gate, then set
`hasGameStarted := true`. -/
def StartGame (s : Store) (req : GameRequest) (o : Sched) : Out Unit :=
  match IsGameOwner s req.gameId req.playerId o with
  | ⟨.error e, s1, o1⟩ => ⟨.error e, s1, o1⟩
  | ⟨.ok isOwner, s1, o1⟩ =>
    if !isOwner then
      ⟨.error (.unauthorized "only the game owner can start this game"), s1, o1⟩
    else SetGameState s1 true req.gameId o1

/-- `EndGame` of src/main.go: ownership gate, then set
`hasGameStarted := false`. -/
def EndGame (s : Store) (req : GameRequest) (o : Sched) : Out Unit :=
  match IsGameOwner s req.gameId req.playerId o with
  | ⟨.error e, s1, o1⟩ => ⟨.error e, s1, o1⟩
  | ⟨.ok isOwner, s1, o1⟩ =>
    if !isOwner then
      ⟨.error (.unauthorized "only the game owner can end this game"), s1, o1⟩
    else SetGameState s1 false req.gameId o1

/-- `PlayerList` of src/main.go: ownership gate (its unauthorized message
is the end-game one, copied verbatim in the source), then the secondary
index query.  Unmarshalling never fails for these structs, so no record is
skipped in the model. -/
def PlayerList (s : Store) (req : GameRequest) (o : Sched) : Out (List Player) :=
  match IsGameOwner s req.gameId req.playerId o with
  | ⟨.error e, s1, o1⟩ => ⟨.error e, s1, o1⟩
  | ⟨.ok isOwner, s1, o1⟩ =>
    if !isOwner then
      ⟨.error (.unauthorized "only the game owner can end this game"), s1, o1⟩
    else
      match tick o1 with
      | (fail, o2) =>
        if fail then ⟨.error (.transportFailed "failed to query players by gameId"), s1, o2⟩
        else ⟨.ok (s1.queryPlayersByGameId req.gameId), s1, o2⟩

/-- `LeaveGame` of src/main.go: unconditional `DeleteItem` of the player
keyed by the requester's own `playerId`; no ownership or existence
check. -/
def LeaveGame (s : Store) (req : GameRequest) (o : Sched) : Out Unit :=
  match tick o with
  | (fail, o1) =>
    if fail then ⟨.error (.transportFailed "failed to remove player"), s, o1⟩
    else ⟨.ok (), s.deletePlayerItem req.playerId, o1⟩

/-- `GameState` of src/main.go: read the game, `NotFound` if absent, else
return `hasGameStarted`. -/
def GameState (s : Store) (req : GameRequest) (o : Sched) : Out Bool :=
  match tick o with
  | (fail, o1) =>
    if fail then ⟨.error (.transportFailed "failed to get game"), s, o1⟩
    else
      match s.getGame req.gameId with
      | none => ⟨.error (.gameNotFound req.gameId), s, o1⟩
      | some game => ⟨.ok game.hasGameStarted, s, o1⟩

/-- The typed outcomes the HTTP handlers distinguish (200, 404, 409, 500);
500 is the spec's `StoreUnavailable` class. -/
inductive ApiStatus where
  | ok
  | notFound
  | conflict
  | storeUnavailable
deriving DecidableEq

/-- `handleCreateGame` of src/main.go: a cancelled transaction maps to 409
Conflict via `errors.As`, any other failure to 500. -/
def handleCreateGame (s : Store) (req : CreateGameRequest) (o : Sched) : ApiStatus × Store × Sched :=
  match CreateGameAndPlayer s req o with
  | ⟨.error .transactionCanceled, s1, o1⟩ => (.conflict, s1, o1)
  | ⟨.error _, s1, o1⟩ => (.storeUnavailable, s1, o1)
  | ⟨.ok _, s1, o1⟩ => (.ok, s1, o1)

/-- `handleJoinGame` of src/main.go: ANY error from `JoinGame` (absent
game or failed read) maps to 404; a conditional-check failure from
`CreatePlayer` maps to 409 via `errors.As`, its other failures to 500. -/
def handleJoinGame (s : Store) (req : JoinGameRequest) (o : Sched) : ApiStatus × Store × Sched :=
  match JoinGame s req o with
  | ⟨.error _, s1, o1⟩ => (.notFound, s1, o1)
  | ⟨.ok _, s1, o1⟩ =>
    match CreatePlayer s1 req o1 with
    | ⟨.error .condCheckFailed, s2, o2⟩ => (.conflict, s2, o2)
    | ⟨.error _, s2, o2⟩ => (.storeUnavailable, s2, o2)
    | ⟨.ok _, s2, o2⟩ => (.ok, s2, o2)

/-! ### Schedule and store lemmas -/

/-- Every store call covered by the schedule succeeds. -/
def AllOk (o : Sched) : Prop := ∀ b ∈ o, b = false

lemma allOk_tick {o : Sched} (h : AllOk o) : (tick o).1 = false ∧ AllOk (tick o).2 := by
  cases o with
  | nil => exact ⟨rfl, h⟩
  | cons b r => exact ⟨h b (List.mem_cons_self b r), fun x hx => h x (List.mem_cons_of_mem b hx)⟩

lemma schedAt_nil (i : Nat) : schedAt [] i = false := by
  simp [schedAt, List.getD_eq_getElem?_getD]

lemma schedAt_cons_zero (b : Bool) (r : Sched) : schedAt (b :: r) 0 = b := rfl

lemma schedAt_cons_succ (b : Bool) (r : Sched) (i : Nat) :
    schedAt (b :: r) (i + 1) = schedAt r i := by
  simp [schedAt, List.getD_eq_getElem?_getD]

lemma allOk_schedAt {o : Sched} (h : AllOk o) (i : Nat) : schedAt o i = false := by
  rw [schedAt, List.getD_eq_getElem?_getD]
  cases hx : o[i]? with
  | none => rfl
  | some b => simpa using h b (List.getElem?_mem hx)

lemma deletePlayerItem_games (s : Store) (pid : String) :
    (s.deletePlayerItem pid).games = s.games := rfl

lemma deleteGameItem_players (s : Store) (gid : String) :
    (s.deleteGameItem gid).players = s.players := rfl

lemma getGame_deleteGameItem (s : Store) (gid : String) :
    (s.deleteGameItem gid).getGame gid = none := by
  rw [Store.getGame, List.find?_eq_none]
  intro x hx
  have hk := (List.mem_filter.mp hx).2
  simpa using hk

lemma deletePlayersLoop_games (items : List Player) : ∀ (s : Store) (o : Sched),
    (deletePlayersLoop s items o).1.games = s.games := by
  induction items with
  | nil => intro s o; rfl
  | cons p rest ih =>
    intro s o
    cases o with
    | nil => simpa [deletePlayersLoop, tick] using ih (s.deletePlayerItem p.playerId) []
    | cons b r =>
      cases b with
      | false => simpa [deletePlayersLoop, tick] using ih (s.deletePlayerItem p.playerId) r
      | true => simpa [deletePlayersLoop, tick] using ih s r

lemma forall_idx_cons {α : Type} (a : α) (l : List α) (P : Nat → α → Prop) :
    (∀ i q, (a :: l)[i]? = some q → P i q) ↔ (P 0 a ∧ ∀ i q, l[i]? = some q → P (i + 1) q) := by
  constructor
  · intro h
    exact ⟨h 0 a List.getElem?_cons_zero, fun i q hq => h (i + 1) q (by simpa using hq)⟩
  · rintro ⟨h0, h⟩ i q hq
    cases i with
    | zero =>
      rw [List.getElem?_cons_zero] at hq
      cases hq
      exact h0
    | succ j => exact h j q (by simpa using hq)

/-- Characterisation of the best-effort cascade: a player survives the
loop exactly when it was there before and no successfully scheduled
deletion targeted its key. -/
lemma deletePlayersLoop_mem (items : List Player) : ∀ (s : Store) (o : Sched) (p : Player),
    (p ∈ (deletePlayersLoop s items o).1.players ↔
      (p ∈ s.players ∧
        ∀ i q, items[i]? = some q → schedAt o i = false → q.playerId ≠ p.playerId)) := by
  induction items with
  | nil =>
    intro s o p
    simp [deletePlayersLoop]
  | cons q rest ih =>
    intro s o p
    have hmem : ∀ s1 : Store, p ∈ (s1.deletePlayerItem q.playerId).players ↔
        (p ∈ s1.players ∧ q.playerId ≠ p.playerId) := by
      intro s1
      rw [Store.deletePlayerItem]
      simp only [List.mem_filter, bne_iff_ne]
      exact and_congr_right (fun _ => ne_comm)
    cases o with
    | nil =>
      rw [show deletePlayersLoop s (q :: rest) [] =
            deletePlayersLoop (s.deletePlayerItem q.playerId) rest [] from rfl, ih, hmem,
        forall_idx_cons q rest (fun i q2 => schedAt [] i = false → q2.playerId ≠ p.playerId)]
      simp only [schedAt_nil]
      constructor
      · rintro ⟨⟨hp, hq⟩, ht⟩
        exact ⟨hp, fun _ => hq, fun i q2 h2 _ => ht i q2 h2 trivial⟩
      · rintro ⟨hp, hq, ht⟩
        exact ⟨⟨hp, hq trivial⟩, fun i q2 h2 _ => ht i q2 h2 trivial⟩
    | cons b r =>
      cases b with
      | false =>
        rw [show deletePlayersLoop s (q :: rest) (false :: r) =
              deletePlayersLoop (s.deletePlayerItem q.playerId) rest r from rfl, ih, hmem,
          forall_idx_cons q rest
            (fun i q2 => schedAt (false :: r) i = false → q2.playerId ≠ p.playerId)]
        simp only [schedAt_cons_zero, schedAt_cons_succ]
        constructor
        · rintro ⟨⟨hp, hq⟩, ht⟩
          exact ⟨hp, fun _ => hq, fun i q2 h2 => ht i q2 h2⟩
        · rintro ⟨hp, hq, ht⟩
          exact ⟨⟨hp, hq trivial⟩, fun i q2 h2 => ht i q2 h2⟩
      | true =>
        rw [show deletePlayersLoop s (q :: rest) (true :: r) =
              deletePlayersLoop s rest r from rfl, ih,
          forall_idx_cons q rest
            (fun i q2 => schedAt (true :: r) i = false → q2.playerId ≠ p.playerId)]
        simp only [schedAt_cons_zero, schedAt_cons_succ]
        constructor
        · rintro ⟨hp, ht⟩
          refine ⟨hp, ?_, fun i q2 h2 => ht i q2 h2⟩
          intro h
          exact absurd h (by simp)
        · rintro ⟨hp, _, ht⟩
          exact ⟨hp, fun i q2 h2 => ht i q2 h2⟩

lemma isGameOwner_cons_some {s : Store} {g : Game} {gid : String} (pid : String) (rest : Sched)
    (hg : s.getGame gid = some g) :
    IsGameOwner s gid pid (false :: rest) = ⟨.ok (g.ownerId == pid), s, rest⟩ := by
  simp [IsGameOwner, tick, hg]

/-! ### Concrete fixtures used by witnesses and counterexamples -/

/-- An empty store. -/
def emptyStore : Store := { games := [], players := [] }

/-- The demo game: `g1` named Settlers, not started, owned by `p1`. -/
def demoGame : Game :=
  { gameId := "g1", gameName := "Settlers", hasGameStarted := false, ownerId := "p1" }

/-- A store holding the demo game and its two members `p1` and `p2`. -/
def demoStore : Store :=
  { games := [demoGame],
    players := [{ playerId := "p1", playerName := "Alice", gameId := "g1" },
                { playerId := "p2", playerName := "Bob", gameId := "g1" }] }

/-! ### Claims -/

/-- Claim C1 (confirmed): `CreateSessionAndOwner` (`CreateGameAndPlayer`)
is all-or-nothing: on success both the Session record (given sessionId,
name, started=false, ownerId = the owner's memberId) and the owner's
Member record exist; on any failure neither record was created by the
call; and when a Session with that sessionId or a Member with that
memberId already exists (and the transaction reaches the store) it fails
with the cancelled transaction that the handler classifies as Conflict. -/
theorem createGameAndPlayer_atomic (s : Store) (req : CreateGameRequest) (o : Sched) :
    ((CreateGameAndPlayer s req o).res = .ok () →
      (CreateGameAndPlayer s req o).store.getGame req.gameId =
        some { gameId := req.gameId, gameName := req.gameName,
               hasGameStarted := false, ownerId := req.playerId } ∧
      (CreateGameAndPlayer s req o).store.getPlayer req.playerId =
        some { playerId := req.playerId, playerName := req.playerName, gameId := req.gameId })
    ∧ ((CreateGameAndPlayer s req o).res ≠ .ok () → (CreateGameAndPlayer s req o).store = s)
    ∧ ((tick o).1 = false →
        ((s.getGame req.gameId).isSome ∨ (s.getPlayer req.playerId).isSome) →
        (CreateGameAndPlayer s req o).res = .error .transactionCanceled ∧
        (handleCreateGame s req o).1 = .conflict) := by
  rcases ht : tick o with ⟨fail, o1⟩
  cases fail with
  | true =>
    rw [show CreateGameAndPlayer s req o =
        ⟨.error (.transportFailed "transaction failed"), s, o1⟩ by
      rw [CreateGameAndPlayer, ht]; rfl]
    refine ⟨(fun h => nomatch h), fun _ => rfl, ?_⟩
    intro hfalse
    exact absurd hfalse (by simp)
  | false =>
    cases hdup : ((s.getGame req.gameId).isSome || (s.getPlayer req.playerId).isSome) with
    | true =>
      have hc : CreateGameAndPlayer s req o = ⟨.error .transactionCanceled, s, o1⟩ := by
        rw [CreateGameAndPlayer, ht]
        simp [hdup]
      rw [hc]
      refine ⟨(fun h => nomatch h), fun _ => rfl, fun _ _ => ⟨rfl, ?_⟩⟩
      simp [handleCreateGame, hc]
    | false =>
      obtain ⟨hg, hp⟩ := Bool.or_eq_false_iff.mp hdup
      have hgn : s.getGame req.gameId = none := Option.not_isSome_iff_eq_none.mp (by simp [hg])
      have hpn : s.getPlayer req.playerId = none := Option.not_isSome_iff_eq_none.mp (by simp [hp])
      have hc : CreateGameAndPlayer s req o =
          ⟨.ok (),
            (s.putGame { gameId := req.gameId, gameName := req.gameName,
                         hasGameStarted := false, ownerId := req.playerId }).putPlayer
              { playerId := req.playerId, playerName := req.playerName, gameId := req.gameId },
            o1⟩ := by
        rw [CreateGameAndPlayer, ht]
        simp [hdup]
      rw [hc]
      refine ⟨fun _ => ⟨?_, ?_⟩, fun hne => absurd rfl hne, ?_⟩
      · rw [Store.getGame] at hgn ⊢
        rw [show ((s.putGame _).putPlayer _).games =
            s.games ++ [{ gameId := req.gameId, gameName := req.gameName,
                          hasGameStarted := false, ownerId := req.playerId }] from rfl,
          List.find?_append, hgn, Option.none_or, List.find?_cons_of_pos _ (by simp)]
      · rw [Store.getPlayer] at hpn ⊢
        rw [show ((s.putGame _).putPlayer _).players =
            s.players ++ [{ playerId := req.playerId, playerName := req.playerName,
                            gameId := req.gameId }] from rfl,
          List.find?_append, hpn, Option.none_or, List.find?_cons_of_pos _ (by simp)]
      · intro _ hor
        rcases hor with h | h
        · rw [hgn] at h; cases h
        · rw [hpn] at h; cases h

/-- Witness for C1: on an empty store the create succeeds and both records
are present; on a store already holding the game it fails with the
cancelled transaction, mapped to Conflict, and changes nothing. -/
theorem createGameAndPlayer_atomic_witness :
    ((CreateGameAndPlayer emptyStore
        { gameName := "Settlers", playerName := "Alice", gameId := "g1", playerId := "p1" }
        []).res = .ok () ∧
      (CreateGameAndPlayer emptyStore
        { gameName := "Settlers", playerName := "Alice", gameId := "g1", playerId := "p1" }
        []).store.getGame "g1" = some demoGame) ∧
    ((CreateGameAndPlayer demoStore
        { gameName := "Settlers", playerName := "Alice", gameId := "g1", playerId := "p9" }
        []).res = .error .transactionCanceled ∧
      (CreateGameAndPlayer demoStore
        { gameName := "Settlers", playerName := "Alice", gameId := "g1", playerId := "p9" }
        []).store = demoStore) := by
  have h1 := (createGameAndPlayer_atomic emptyStore
    { gameName := "Settlers", playerName := "Alice", gameId := "g1", playerId := "p1" } []).1
    (by decide)
  have h2 := (createGameAndPlayer_atomic demoStore
    { gameName := "Settlers", playerName := "Alice", gameId := "g1", playerId := "p9" } []).2.2
    (by decide) (by decide)
  exact ⟨⟨by decide, h1.1⟩, ⟨h2.1, by decide⟩⟩

/-- Claim C6 (confirmed): `IsOwner` (`IsGameOwner`) fails with NotFound
when no Session with the sessionId exists, otherwise returns the boolean
value of stored ownerId == memberId, and never mutates either
collection. -/
theorem isGameOwner_spec (s : Store) (gid pid : String) (o : Sched) :
    ((tick o).1 = false →
      (s.getGame gid = none → (IsGameOwner s gid pid o).res = .error (.gameNotFound gid)) ∧
      ∀ g, s.getGame gid = some g → (IsGameOwner s gid pid o).res = .ok (g.ownerId == pid))
    ∧ (IsGameOwner s gid pid o).store = s := by
  rcases ht : tick o with ⟨fail, o1⟩
  have hunf : IsGameOwner s gid pid o =
      (if fail then ⟨.error (.transportFailed "failed to get game"), s, o1⟩
       else
        match s.getGame gid with
        | none => ⟨.error (.gameNotFound gid), s, o1⟩
        | some game => ⟨.ok (game.ownerId == pid), s, o1⟩) := by
    rw [IsGameOwner, ht]
  cases fail with
  | true =>
    constructor
    · intro hfalse
      exact absurd hfalse (by simp)
    · simp [hunf]
  | false =>
    constructor
    · intro _
      constructor
      · intro hn
        simp [hunf, hn]
      · intro g hgg
        simp [hunf, hgg]
    · cases hg : s.getGame gid <;> simp [hunf, hg]

/-- Witness for C6: on the demo store, the owner check answers `true` for
`p1`, `false` for `p2`, NotFound for a missing game, all without
mutation. -/
theorem isGameOwner_spec_witness :
    (IsGameOwner demoStore "g1" "p2" []).res = .ok false ∧
    (IsGameOwner demoStore "g9" "p1" []).res = .error (.gameNotFound "g9") ∧
    (IsGameOwner demoStore "g1" "p2" []).store = demoStore := by
  have h1 := ((isGameOwner_spec demoStore "g1" "p2" []).1 (by decide)).2 demoGame (by decide)
  have h2 := ((isGameOwner_spec demoStore "g9" "p1" []).1 (by decide)).1 (by decide)
  exact ⟨by simpa using h1, h2, (isGameOwner_spec demoStore "g1" "p2" []).2⟩

/-- Claim C2 (confirmed): every owner-restricted operation (DeleteSession,
RemoveMember, StartSession, EndSession, ListMembers), called on a store
where the session exists with a requesterId different from the stored
ownerId (and a successfully answering store read), returns the
unauthorized error and leaves the whole store — both collections —
unchanged. -/
theorem ownerGate_unauthorized (s : Store) (g : Game) (gid pid tgt : String) (rest : Sched)
    (hg : s.getGame gid = some g) (hown : g.ownerId ≠ pid) :
    ((DeleteGame s { gameId := gid, playerId := pid } (false :: rest)).res =
        .error (.unauthorized "only the game owner can delete this game") ∧
      (DeleteGame s { gameId := gid, playerId := pid } (false :: rest)).store = s) ∧
    ((RemovePlayer s { gameId := gid, playerId := pid, playerIdToRemove := tgt }
        (false :: rest)).res =
        .error (.unauthorized "only the game owner can remove a player") ∧
      (RemovePlayer s { gameId := gid, playerId := pid, playerIdToRemove := tgt }
        (false :: rest)).store = s) ∧
    ((StartGame s { gameId := gid, playerId := pid } (false :: rest)).res =
        .error (.unauthorized "only the game owner can start this game") ∧
      (StartGame s { gameId := gid, playerId := pid } (false :: rest)).store = s) ∧
    ((EndGame s { gameId := gid, playerId := pid } (false :: rest)).res =
        .error (.unauthorized "only the game owner can end this game") ∧
      (EndGame s { gameId := gid, playerId := pid } (false :: rest)).store = s) ∧
    ((PlayerList s { gameId := gid, playerId := pid } (false :: rest)).res =
        .error (.unauthorized "only the game owner can end this game") ∧
      (PlayerList s { gameId := gid, playerId := pid } (false :: rest)).store = s) := by
  have hb : (g.ownerId == pid) = false := beq_eq_false_iff_ne.mpr hown
  have hiso := isGameOwner_cons_some pid rest hg
  refine ⟨⟨?_, ?_⟩, ⟨?_, ?_⟩, ⟨?_, ?_⟩, ⟨?_, ?_⟩, ⟨?_, ?_⟩⟩ <;>
    simp [DeleteGame, RemovePlayer, StartGame, EndGame, PlayerList, hiso, hb]

/-- Witness for C2: on the demo store, requester `p2` (not the owner) is
turned away by DeleteGame without any change to the store. -/
theorem ownerGate_unauthorized_witness :
    (demoStore.getGame "g1" = some demoGame ∧ demoGame.ownerId ≠ "p2") ∧
    (DeleteGame demoStore { gameId := "g1", playerId := "p2" } [false]).res =
      .error (.unauthorized "only the game owner can delete this game") ∧
    (DeleteGame demoStore { gameId := "g1", playerId := "p2" } [false]).store = demoStore := by
  have h := (ownerGate_unauthorized demoStore demoGame "g1" "p2" "px" []
    (by decide) (by decide)).1
  exact ⟨⟨by decide, by decide⟩, h.1, h.2⟩

/-- Claim C8 (confirmed): `LeaveSession` (`LeaveGame`) unconditionally
deletes the Member record keyed by the caller's memberId: it never fails
Unauthorized for any store state and schedule, and with a working store it
succeeds — leaving everything else unchanged, and changing nothing at all
when no such Member exists. -/
theorem leaveGame_self_service (s : Store) (req : GameRequest) (o : Sched) :
    (∀ m, (LeaveGame s req o).res ≠ .error (.unauthorized m)) ∧
    ((tick o).1 = false →
      (LeaveGame s req o).res = .ok () ∧
      (LeaveGame s req o).store = s.deletePlayerItem req.playerId ∧
      (LeaveGame s req o).store.games = s.games ∧
      (s.getPlayer req.playerId = none → (LeaveGame s req o).store = s)) := by
  rcases ht : tick o with ⟨fail, o1⟩
  have hunf : LeaveGame s req o =
      (if fail then ⟨.error (.transportFailed "failed to remove player"), s, o1⟩
       else ⟨.ok (), s.deletePlayerItem req.playerId, o1⟩) := by
    rw [LeaveGame, ht]
  cases fail with
  | true =>
    constructor
    · intro m
      simp [hunf]
    · intro hfalse
      exact absurd hfalse (by simp)
  | false =>
    refine ⟨fun m => by simp [hunf], fun _ => ⟨by simp [hunf], by simp [hunf], by simp [hunf, deletePlayerItem_games], ?_⟩⟩
    intro hnone
    have hall : ∀ p ∈ s.players, (p.playerId != req.playerId) = true := by
      intro p hp
      have := List.find?_eq_none.mp hnone p hp
      simpa using this
    have hfilter : s.players.filter (fun p => p.playerId != req.playerId) = s.players :=
      List.filter_eq_self.mpr hall
    simp [hunf, Store.deletePlayerItem, hfilter]

/-- Witness for C8: on the demo store, `p2` leaves without any ownership
check, and a leave for an unknown member succeeds and changes nothing. -/
theorem leaveGame_self_service_witness :
    (LeaveGame demoStore { gameId := "g1", playerId := "p2" } []).res = .ok () ∧
    (LeaveGame demoStore { gameId := "g1", playerId := "p9" } []).store = demoStore := by
  have h1 := (leaveGame_self_service demoStore { gameId := "g1", playerId := "p2" } []).2 (by decide)
  have h2 := ((leaveGame_self_service demoStore { gameId := "g1", playerId := "p9" } []).2
    (by decide)).2.2.2 (by decide)
  exact ⟨h1.1, h2⟩

/-- Claim C9 (confirmed): `RemoveMember` (`RemovePlayer`) deletes the
target Member record keyed solely by `playerIdToRemove`, never comparing
the target's stored sessionId with the request's: whenever the requester
owns the named session (and the store answers), the call succeeds and
every player record carrying the target id is deleted — including records
referencing a different session. -/
theorem removePlayer_ignores_target_session (s : Store) (g : Game) (gid pid tgt : String)
    (rest : Sched) (hg : s.getGame gid = some g) (hown : g.ownerId = pid) :
    (RemovePlayer s { gameId := gid, playerId := pid, playerIdToRemove := tgt }
        (false :: false :: rest)).res = .ok () ∧
    (RemovePlayer s { gameId := gid, playerId := pid, playerIdToRemove := tgt }
        (false :: false :: rest)).store.games = s.games ∧
    (RemovePlayer s { gameId := gid, playerId := pid, playerIdToRemove := tgt }
        (false :: false :: rest)).store.players =
      s.players.filter (fun p => p.playerId != tgt) ∧
    ∀ p, p ∈ s.players → p.playerId = tgt →
      p ∉ (RemovePlayer s { gameId := gid, playerId := pid, playerIdToRemove := tgt }
        (false :: false :: rest)).store.players := by
  have hb : (g.ownerId == pid) = true := by
    rw [hown]
    exact beq_self_eq_true pid
  have hiso := isGameOwner_cons_some pid (false :: rest) hg
  have hunf : RemovePlayer s { gameId := gid, playerId := pid, playerIdToRemove := tgt }
      (false :: false :: rest) = ⟨.ok (), s.deletePlayerItem tgt, rest⟩ := by
    simp [RemovePlayer, hiso, hb, tick]
  refine ⟨by simp [hunf], by simp [hunf, deletePlayerItem_games], by simp [hunf, Store.deletePlayerItem], ?_⟩
  intro p hp hpid hmem
  rw [hunf] at hmem
  have hk := (List.mem_filter.mp hmem).2
  rw [hpid] at hk
  simp at hk

/-- Witness for C9: the owner of `g1` removes `q7`, a member of a
DIFFERENT session `g2`; the call succeeds and `q7` is gone. -/
theorem removePlayer_ignores_target_session_witness :
    ((demoStore.putPlayer { playerId := "q7", playerName := "Eve", gameId := "g2" }).getGame "g1" =
        some demoGame ∧ demoGame.ownerId = "p1") ∧
    (RemovePlayer (demoStore.putPlayer { playerId := "q7", playerName := "Eve", gameId := "g2" })
        { gameId := "g1", playerId := "p1", playerIdToRemove := "q7" } [false, false]).res = .ok () ∧
    ({ playerId := "q7", playerName := "Eve", gameId := "g2" } : Player) ∉
      (RemovePlayer (demoStore.putPlayer { playerId := "q7", playerName := "Eve", gameId := "g2" })
        { gameId := "g1", playerId := "p1", playerIdToRemove := "q7" } [false, false]).store.players := by
  have h := removePlayer_ignores_target_session
    (demoStore.putPlayer { playerId := "q7", playerName := "Eve", gameId := "g2" })
    demoGame "g1" "p1" "q7" [] (by decide) (by decide)
  exact ⟨⟨by decide, by decide⟩, h.1,
    h.2.2.2 { playerId := "q7", playerName := "Eve", gameId := "g2" } (by decide) (by decide)⟩

/-- Claim C10 (confirmed): `DeleteSession` is not atomic on error with
respect to the Session record: under the store behaviour in which the
secondary-index query fails right after the Session delete succeeded
(schedule [false, false, true]), `DeleteGame` returns an error while the
Session record is already gone and no Member was deleted. -/
theorem deleteGame_error_after_session_removed :
    (DeleteGame demoStore { gameId := "g1", playerId := "p1" } [false, false, true]).res =
      .error (.transportFailed "failed to query players by gameId") ∧
    (DeleteGame demoStore { gameId := "g1", playerId := "p1" }
        [false, false, true]).store.getGame "g1" = none ∧
    (DeleteGame demoStore { gameId := "g1", playerId := "p1" }
        [false, false, true]).store.players = demoStore.players := by
  decide

/-- Counterexample to claim C4 as stated: the session exists and the
member is fresh, but the session-existence read fails at the transport
level (first scheduled call fails); `JoinGame` returns a wrapped transport
error, yet the handler answers NotFound — the Go handler maps EVERY
`JoinGame` error to 404 — where the claim demands StoreUnavailable. -/
theorem joinSession_transport_notFound_counterexample :
    (handleJoinGame demoStore { gameId := "g1", playerId := "p3", playerName := "Carol" }
        [true, false]).1 = .notFound ∧
    (JoinGame demoStore { gameId := "g1", playerId := "p3", playerName := "Carol" }
        [true, false]).res = .error (.transportFailed "failed to query DynamoDB") ∧
    ApiStatus.notFound ≠ ApiStatus.storeUnavailable := by
  decide

/-- Claim C4 (corrected): the full error mapping of a join.  NotFound is
answered whenever the session-existence step fails — because the session
is absent OR because that read itself fails at the transport level;
Conflict when the member already exists (conditional-check failure of the
member write); StoreUnavailable only when the member write fails at the
transport level; Ok otherwise. -/
theorem handleJoinGame_error_mapping (s : Store) (req : JoinGameRequest) (b1 b2 : Bool)
    (rest : Sched) :
    (handleJoinGame s req (b1 :: b2 :: rest)).1 =
      (if b1 then .notFound
       else if s.getGame req.gameId = none then .notFound
       else if b2 then .storeUnavailable
       else if (s.getPlayer req.playerId).isSome then .conflict
       else .ok) := by
  cases b1 with
  | true => simp [handleJoinGame, JoinGame, tick]
  | false =>
    cases hg : s.getGame req.gameId with
    | none => simp [handleJoinGame, JoinGame, tick, hg]
    | some g =>
      cases b2 with
      | true => simp [handleJoinGame, JoinGame, CreatePlayer, tick, hg]
      | false =>
        cases hp : (s.getPlayer req.playerId).isSome with
        | true => simp [handleJoinGame, JoinGame, CreatePlayer, tick, hg, hp]
        | false => simp [handleJoinGame, JoinGame, CreatePlayer, tick, hg, hp]

/-- Successful `DeleteGame` run: owner authorised, game delete and player
query both reaching the store, followed by the best-effort cascade. -/
lemma deleteGame_ok_run (s : Store) (g : Game) (gid pid : String) (rest : Sched)
    (hg : s.getGame gid = some g) (hown : g.ownerId = pid) :
    DeleteGame s { gameId := gid, playerId := pid } (false :: false :: false :: rest) =
      ⟨.ok (),
        (deletePlayersLoop (s.deleteGameItem gid)
          ((s.deleteGameItem gid).queryPlayersByGameId gid) rest).1,
        (deletePlayersLoop (s.deleteGameItem gid)
          ((s.deleteGameItem gid).queryPlayersByGameId gid) rest).2⟩ := by
  have hb : (g.ownerId == pid) = true := by
    rw [hown]
    exact beq_self_eq_true pid
  have hiso := isGameOwner_cons_some pid (false :: false :: rest) hg
  rcases hloop : deletePlayersLoop (s.deleteGameItem gid)
      ((s.deleteGameItem gid).queryPlayersByGameId gid) rest with ⟨s3, o4⟩
  simp [DeleteGame, hiso, hb, tick, hloop]

/-- Claim C5 (confirmed): the `DeleteGame` member cascade is best-effort:
whatever the per-member delete outcomes in `rest`, the call still reports
success and the Session deletion stands; and every queried member whose
own delete call succeeded is gone — later members are processed even when
an earlier delete failed. -/
theorem deleteGame_best_effort (s : Store) (g : Game) (gid pid : String) (rest : Sched)
    (hg : s.getGame gid = some g) (hown : g.ownerId = pid) :
    (DeleteGame s { gameId := gid, playerId := pid } (false :: false :: false :: rest)).res =
      .ok () ∧
    (DeleteGame s { gameId := gid, playerId := pid }
      (false :: false :: false :: rest)).store.getGame gid = none ∧
    ∀ i q, ((s.deleteGameItem gid).queryPlayersByGameId gid)[i]? = some q →
      schedAt rest i = false →
      (DeleteGame s { gameId := gid, playerId := pid }
        (false :: false :: false :: rest)).store.getPlayer q.playerId = none := by
  rw [deleteGame_ok_run s g gid pid rest hg hown]
  rcases hloop : deletePlayersLoop (s.deleteGameItem gid)
      ((s.deleteGameItem gid).queryPlayersByGameId gid) rest with ⟨s3, o4⟩
  have hgames : s3.games = (s.deleteGameItem gid).games := by
    have := deletePlayersLoop_games ((s.deleteGameItem gid).queryPlayersByGameId gid)
      (s.deleteGameItem gid) rest
    rw [hloop] at this
    exact this
  refine ⟨rfl, ?_, ?_⟩
  · rw [show ((⟨.ok (), (s3, o4).1, (s3, o4).2⟩ : Out Unit)).store = s3 from rfl]
    rw [Store.getGame, hgames, ← Store.getGame]
    exact getGame_deleteGameItem s gid
  · intro i q hq hsch
    rw [show ((⟨.ok (), (s3, o4).1, (s3, o4).2⟩ : Out Unit)).store = s3 from rfl]
    rw [Store.getPlayer, List.find?_eq_none]
    intro x hx
    have hmem := (deletePlayersLoop_mem ((s.deleteGameItem gid).queryPlayersByGameId gid)
      (s.deleteGameItem gid) rest x)
    rw [hloop] at hmem
    have hx2 := hmem.mp hx
    have hne := hx2.2 i q hq hsch
    intro hbeq
    exact hne ((beq_iff_eq.mp hbeq).symm)

/-- Witness for C5: in the demo store the delete of `p1` fails (bit true)
but `p2` is still processed and deleted, the game record stays deleted and
the overall call reports success. -/
theorem deleteGame_best_effort_witness :
    (DeleteGame demoStore { gameId := "g1", playerId := "p1" }
        [false, false, false, true, false]).res = .ok () ∧
    (DeleteGame demoStore { gameId := "g1", playerId := "p1" }
        [false, false, false, true, false]).store.getGame "g1" = none ∧
    (DeleteGame demoStore { gameId := "g1", playerId := "p1" }
        [false, false, false, true, false]).store.getPlayer "p2" = none ∧
    (DeleteGame demoStore { gameId := "g1", playerId := "p1" }
        [false, false, false, true, false]).store.getPlayer "p1" ≠ none := by
  have h := deleteGame_best_effort demoStore demoGame "g1" "p1" [true, false]
    (by decide) (by decide)
  refine ⟨h.1, h.2.1, ?_, by decide⟩
  have h2 := h.2.2 1 { playerId := "p2", playerName := "Bob", gameId := "g1" }
    (by decide) (by decide)
  exact h2

/-- Counterexample to claim C3 as stated: a per-member delete can fail
while `DeleteGame` still reports success, so after a successful call a
member the secondary-index query returned (here `p1`, whose delete call
failed) can still be present, and the query still returns it. -/
theorem deleteGame_cascade_counterexample :
    (DeleteGame demoStore { gameId := "g1", playerId := "p1" }
        [false, false, false, true, false]).res = .ok () ∧
    (DeleteGame demoStore { gameId := "g1", playerId := "p1" }
        [false, false, false, true, false]).store.queryPlayersByGameId "g1" =
      [{ playerId := "p1", playerName := "Alice", gameId := "g1" }] := by
  decide

/-- Claim C3 (corrected): after a `DeleteGame` call that succeeds under a
schedule in which every store call succeeds (no transient failures — in
particular every per-member delete), the Session record is absent and a
subsequent secondary-index query for that sessionId returns nothing. -/
theorem deleteGame_cascade_complete (s : Store) (req : GameRequest) (o : Sched)
    (hok : AllOk o) (hres : (DeleteGame s req o).res = .ok ()) :
    (DeleteGame s req o).store.getGame req.gameId = none ∧
    (DeleteGame s req o).store.queryPlayersByGameId req.gameId = [] := by
  rcases ht1 : tick o with ⟨b1, o1⟩
  have h1 := allOk_tick hok
  rw [ht1] at h1
  have hb1 : b1 = false := by simpa using h1.1
  have hok1 : AllOk o1 := h1.2
  subst hb1
  have hIso0 : IsGameOwner s req.gameId req.playerId o =
      (match s.getGame req.gameId with
       | none => ⟨.error (.gameNotFound req.gameId), s, o1⟩
       | some game => ⟨.ok (game.ownerId == req.playerId), s, o1⟩) := by
    rw [IsGameOwner, ht1]
    rfl
  cases hg : s.getGame req.gameId with
  | none =>
    have hD : DeleteGame s req o = ⟨.error (.gameNotFound req.gameId), s, o1⟩ := by
      simp [DeleteGame, hIso0, hg]
    rw [hD] at hres
    exact absurd hres (by simp)
  | some g =>
    cases hb : g.ownerId == req.playerId with
    | false =>
      have hD : DeleteGame s req o =
          ⟨.error (.unauthorized "only the game owner can delete this game"), s, o1⟩ := by
        simp [DeleteGame, hIso0, hg, hb]
      rw [hD] at hres
      exact absurd hres (by simp)
    | true =>
      rcases ht2 : tick o1 with ⟨b2, o2⟩
      have h2 := allOk_tick hok1
      rw [ht2] at h2
      have hb2 : b2 = false := by simpa using h2.1
      have hok2 : AllOk o2 := h2.2
      subst hb2
      rcases ht3 : tick o2 with ⟨b3, o3⟩
      have h3 := allOk_tick hok2
      rw [ht3] at h3
      have hb3 : b3 = false := by simpa using h3.1
      have hok3 : AllOk o3 := h3.2
      subst hb3
      rcases hloop : deletePlayersLoop (s.deleteGameItem req.gameId)
          ((s.deleteGameItem req.gameId).queryPlayersByGameId req.gameId) o3 with ⟨s3, o4⟩
      have hD : DeleteGame s req o = ⟨.ok (), s3, o4⟩ := by
        simp [DeleteGame, hIso0, hg, hb, ht2, ht3, hloop]
      rw [hD]
      have hgames : s3.games = (s.deleteGameItem req.gameId).games := by
        have := deletePlayersLoop_games
          ((s.deleteGameItem req.gameId).queryPlayersByGameId req.gameId)
          (s.deleteGameItem req.gameId) o3
        rw [hloop] at this
        exact this
      constructor
      · rw [show ((⟨.ok (), s3, o4⟩ : Out Unit)).store = s3 from rfl]
        rw [Store.getGame, hgames, ← Store.getGame]
        exact getGame_deleteGameItem s req.gameId
      · rw [show ((⟨.ok (), s3, o4⟩ : Out Unit)).store = s3 from rfl]
        rw [Store.queryPlayersByGameId, List.eq_nil_iff_forall_not_mem]
        intro p hp
        have hpm := List.mem_filter.mp hp
        have hmem := (deletePlayersLoop_mem
          ((s.deleteGameItem req.gameId).queryPlayersByGameId req.gameId)
          (s.deleteGameItem req.gameId) o3 p)
        rw [hloop] at hmem
        have hx2 := hmem.mp hpm.1
        have hitem : p ∈ (s.deleteGameItem req.gameId).queryPlayersByGameId req.gameId := by
          rw [Store.queryPlayersByGameId, deleteGameItem_players]
          exact List.mem_filter.mpr ⟨hx2.1, hpm.2⟩
        obtain ⟨i, hi⟩ := List.getElem?_of_mem hitem
        exact hx2.2 i p hi (allOk_schedAt hok3 i) rfl

/-- Witness for C3 (amended): deleting the demo game under an all-success
schedule removes the game and empties the secondary index for `g1`. -/
theorem deleteGame_cascade_complete_witness :
    ((∀ b ∈ ([] : Sched), b = false) ∧
      (DeleteGame demoStore { gameId := "g1", playerId := "p1" } []).res = .ok ()) ∧
    (DeleteGame demoStore { gameId := "g1", playerId := "p1" } []).store.getGame "g1" = none ∧
    (DeleteGame demoStore { gameId := "g1", playerId := "p1" }
      []).store.queryPlayersByGameId "g1" = [] := by
  have h := deleteGame_cascade_complete demoStore { gameId := "g1", playerId := "p1" } []
    (by intro b hb; cases hb) (by decide)
  exact ⟨⟨(fun b hb => absurd hb (List.not_mem_nil b)), by decide⟩, h⟩

/-- The single-field update rewrites exactly the looked-up record. -/
lemma find?_map_setStarted (gid : String) (st : Bool) : ∀ (l : List Game) (g : Game),
    l.find? (fun x => x.gameId == gid) = some g →
    (l.map (fun x => if x.gameId == gid then { x with hasGameStarted := st } else x)).find?
      (fun x => x.gameId == gid) = some { g with hasGameStarted := st } := by
  intro l
  induction l with
  | nil => intro g h; cases h
  | cons a t ih =>
    intro g h
    rw [List.find?_cons] at h
    cases hb : (a.gameId == gid) with
    | true =>
      rw [hb] at h
      injection h with h
      subst h
      simp only [List.map_cons]
      rw [show (if (a.gameId == gid) = true
          then ({ gameId := a.gameId, gameName := a.gameName, hasGameStarted := st,
                  ownerId := a.ownerId } : Game) else a) =
          ({ gameId := a.gameId, gameName := a.gameName, hasGameStarted := st,
             ownerId := a.ownerId } : Game) from by rw [if_pos hb]]
      rw [List.find?_cons]
      simp only [hb]
    | false =>
      rw [hb] at h
      simp only [List.map_cons]
      rw [show (if (a.gameId == gid) = true
          then ({ gameId := a.gameId, gameName := a.gameName, hasGameStarted := st,
                  ownerId := a.ownerId } : Game) else a) = a from by rw [if_neg (by simp [hb])]]
      rw [List.find?_cons]
      simp only [hb]
      exact ih g h

lemma updateGameStarted_getGame {s : Store} {gid : String} {g : Game} (st : Bool)
    (hg : s.getGame gid = some g) :
    (s.updateGameStarted gid st).getGame gid = some { g with hasGameStarted := st } := by
  have hfind : s.games.find? (fun x => x.gameId == gid) = some g := hg
  have hmem2 := List.mem_of_find?_eq_some hfind
  have hpg := List.find?_some hfind
  have hany : s.games.any (fun x => x.gameId == gid) = true :=
    List.any_eq_true.mpr ⟨g, hmem2, hpg⟩
  have hupd : s.updateGameStarted gid st =
      { s with games := (s.games.map (fun x => if x.gameId == gid then { x with hasGameStarted := st } else x)) } := by
    rw [Store.updateGameStarted, if_pos hany]
  rw [hupd]
  exact find?_map_setStarted gid st s.games g hfind

/-- Successful owner-gated `StartGame`: flips the flag to true. -/
lemma startGame_ok (s : Store) (g : Game) (req : GameRequest) (o : Sched)
    (hg : s.getGame req.gameId = some g) (hown : g.ownerId = req.playerId) (hok : AllOk o) :
    (StartGame s req o).res = .ok () ∧
    (StartGame s req o).store = s.updateGameStarted req.gameId true ∧
    AllOk (StartGame s req o).sched := by
  rcases ht1 : tick o with ⟨b1, o1⟩
  have h1 := allOk_tick hok
  rw [ht1] at h1
  have hb1 : b1 = false := by simpa using h1.1
  have hok1 : AllOk o1 := h1.2
  subst hb1
  have hb : (g.ownerId == req.playerId) = true := by
    rw [hown]
    exact beq_self_eq_true _
  have hIso : IsGameOwner s req.gameId req.playerId o = ⟨.ok true, s, o1⟩ := by
    rw [IsGameOwner, ht1]
    simp [hg, hb]
  rcases ht2 : tick o1 with ⟨b2, o2⟩
  have h2 := allOk_tick hok1
  rw [ht2] at h2
  have hb2 : b2 = false := by simpa using h2.1
  have hok2 : AllOk o2 := h2.2
  subst hb2
  have hS : StartGame s req o = ⟨.ok (), s.updateGameStarted req.gameId true, o2⟩ := by
    rw [StartGame, hIso]
    simp [SetGameState, ht2]
  rw [hS]
  exact ⟨rfl, rfl, hok2⟩

/-- Successful owner-gated `EndGame`: flips the flag to false. -/
lemma endGame_ok (s : Store) (g : Game) (req : GameRequest) (o : Sched)
    (hg : s.getGame req.gameId = some g) (hown : g.ownerId = req.playerId) (hok : AllOk o) :
    (EndGame s req o).res = .ok () ∧
    (EndGame s req o).store = s.updateGameStarted req.gameId false ∧
    AllOk (EndGame s req o).sched := by
  rcases ht1 : tick o with ⟨b1, o1⟩
  have h1 := allOk_tick hok
  rw [ht1] at h1
  have hb1 : b1 = false := by simpa using h1.1
  have hok1 : AllOk o1 := h1.2
  subst hb1
  have hb : (g.ownerId == req.playerId) = true := by
    rw [hown]
    exact beq_self_eq_true _
  have hIso : IsGameOwner s req.gameId req.playerId o = ⟨.ok true, s, o1⟩ := by
    rw [IsGameOwner, ht1]
    simp [hg, hb]
  rcases ht2 : tick o1 with ⟨b2, o2⟩
  have h2 := allOk_tick hok1
  rw [ht2] at h2
  have hb2 : b2 = false := by simpa using h2.1
  have hok2 : AllOk o2 := h2.2
  subst hb2
  have hS : EndGame s req o = ⟨.ok (), s.updateGameStarted req.gameId false, o2⟩ := by
    rw [EndGame, hIso]
    simp [SetGameState, ht2]
  rw [hS]
  exact ⟨rfl, rfl, hok2⟩

/-- Claim C7 (confirmed): StartSession and EndSession are idempotent for
the owner of an existing session: under a working store, calling
`StartGame` twice succeeds both times and leaves `hasGameStarted = true`;
calling `EndGame` twice succeeds both times and leaves
`hasGameStarted = false`; the repeated call is a no-op success, not an
error. -/
theorem start_end_idempotent (s : Store) (g : Game) (req : GameRequest) (o : Sched)
    (hg : s.getGame req.gameId = some g) (hown : g.ownerId = req.playerId) (hok : AllOk o) :
    ((StartGame s req o).res = .ok () ∧
      (StartGame (StartGame s req o).store req (StartGame s req o).sched).res = .ok () ∧
      (StartGame (StartGame s req o).store req
          (StartGame s req o).sched).store.getGame req.gameId =
        some { g with hasGameStarted := true }) ∧
    ((EndGame s req o).res = .ok () ∧
      (EndGame (EndGame s req o).store req (EndGame s req o).sched).res = .ok () ∧
      (EndGame (EndGame s req o).store req
          (EndGame s req o).sched).store.getGame req.gameId =
        some { g with hasGameStarted := false }) := by
  obtain ⟨hr1, hs1, ho1⟩ := startGame_ok s g req o hg hown hok
  have hg1 : (StartGame s req o).store.getGame req.gameId =
      some { g with hasGameStarted := true } := by
    rw [hs1]
    exact updateGameStarted_getGame true hg
  obtain ⟨hr2, hs2, _⟩ := startGame_ok (StartGame s req o).store { g with hasGameStarted := true }
    req (StartGame s req o).sched hg1 hown ho1
  have hg2 : (StartGame (StartGame s req o).store req
      (StartGame s req o).sched).store.getGame req.gameId =
      some { g with hasGameStarted := true } := by
    rw [hs2]
    have h2g := updateGameStarted_getGame true hg1
    exact h2g
  obtain ⟨er1, es1, eo1⟩ := endGame_ok s g req o hg hown hok
  have eg1 : (EndGame s req o).store.getGame req.gameId =
      some { g with hasGameStarted := false } := by
    rw [es1]
    exact updateGameStarted_getGame false hg
  obtain ⟨er2, es2, _⟩ := endGame_ok (EndGame s req o).store { g with hasGameStarted := false }
    req (EndGame s req o).sched eg1 hown eo1
  have eg2 : (EndGame (EndGame s req o).store req
      (EndGame s req o).sched).store.getGame req.gameId =
      some { g with hasGameStarted := false } := by
    rw [es2]
    have e2g := updateGameStarted_getGame false eg1
    exact e2g
  exact ⟨⟨hr1, hr2, hg2⟩, ⟨er1, er2, eg2⟩⟩

/-- Witness for C7: starting the demo game twice as its owner succeeds
both times and the stored flag reads true. -/
theorem start_end_idempotent_witness :
    (demoStore.getGame "g1" = some demoGame ∧ demoGame.ownerId = "p1") ∧
    (StartGame demoStore { gameId := "g1", playerId := "p1" } []).res = .ok () ∧
    (StartGame (StartGame demoStore { gameId := "g1", playerId := "p1" } []).store
        { gameId := "g1", playerId := "p1" }
        (StartGame demoStore { gameId := "g1", playerId := "p1" } []).sched).res = .ok () ∧
    (StartGame (StartGame demoStore { gameId := "g1", playerId := "p1" } []).store
        { gameId := "g1", playerId := "p1" }
        (StartGame demoStore { gameId := "g1", playerId := "p1" } []).sched).store.getGame "g1" =
      some { demoGame with hasGameStarted := true } := by
  have h := (start_end_idempotent demoStore demoGame { gameId := "g1", playerId := "p1" } []
    (by decide) (by decide) (fun b hb => absurd hb (List.not_mem_nil b))).1
  exact ⟨⟨by decide, by decide⟩, h.1, h.2.1, h.2.2⟩

end TagGame
